import Mathlib

/-
Verification of the signal-processing core of the ssm2044~ Max/MSP external
(src/ssm2044~.c).  The C code is shallowly embedded over the real numbers:
C doubles become real numbers, the libm functions tan and tanh become
Real.tan and Real.tanh, and each C function becomes a Lean function that
threads the t_ssm2044 state record explicitly.  The double literal PI of the
source (3.14159265358979323846, the IEEE approximation of pi) is modelled as
the exact constant Real.pi, and decimal literals are modelled as exact
rationals, as usual for a real-number embedding of floating-point code.
-/

noncomputable section

/-- Source constant PI (src/ssm2044~.c line 41), modelled as the exact
constant. -/
def PI : ℝ := Real.pi

/-- Source constant DENORMAL_THRESHOLD = 1e-15 (line 42). -/
def DENORMAL_THRESHOLD : ℝ := 1 / 10 ^ 15

/-- Source constant RESONANCE_SCALE = 4.0 (line 45). -/
def RESONANCE_SCALE : ℝ := 4

/-- Source constant MAX_RESONANCE = 4.0 (line 46). -/
def MAX_RESONANCE : ℝ := 4

/-- Source constant INPUT_DRIVE = 1.5 (line 49). -/
def INPUT_DRIVE : ℝ := 1.5

/-- Source constant FEEDBACK_DRIVE = 2.0 (line 50). -/
def FEEDBACK_DRIVE : ℝ := 2

/-- Modelled from the spec: the CLAMP define comes from the Max SDK header
ext.h, which is not part of this repository.  It restricts a value to the
range [lo, hi] as the spec describes (spec section 4.4, clamp ranges),
testing the lower bound first as the SDK ternary does.  For lo less than or
equal to hi, which holds at every call site except degenerate sample rates
in compute_filter_coefficients, every standard form of the define agrees
with this one. -/
def CLAMP (x lo hi : ℝ) : ℝ :=
  if x < lo then lo else if x > hi then hi else x

/-- State record of the external, embedding the fields of struct t_ssm2044
(lines 52-81) that the signal path reads or writes.  The MSP header, the
oversampling fields (declared but never used by the signal path) and the
proxy bookkeeping are omitted. -/
structure SSM2044 where
  state1 : ℝ
  state2 : ℝ
  state3 : ℝ
  state4 : ℝ
  feedback_sample : ℝ
  sr : ℝ
  sr_inv : ℝ
  cutoff_float : ℝ
  resonance_float : ℝ
  gain_float : ℝ
  cutoff_has_signal : Bool
  resonance_has_signal : Bool
  gain_has_signal : Bool
  g : ℝ
  k : ℝ

/-- Embedding of denormal_fix (lines 318-324): flush magnitudes below
DENORMAL_THRESHOLD to exact zero. -/
def denormal_fix (value : ℝ) : ℝ :=
  if |value| < DENORMAL_THRESHOLD then 0 else value

/-- Embedding of soft_saturation (lines 328-340): identity for non-positive
drive, otherwise tanh of the driven signal rescaled by the drive. -/
def soft_saturation (input drive : ℝ) : ℝ :=
  if drive ≤ 0 then input
  else Real.tanh (input * drive) / drive

/-- Embedding of compute_filter_coefficients (lines 293-314): clamp the
cutoff below Nyquist, pre-warp with the bilinear transform, derive the
integrator gain g with its stability clamp, and derive the feedback gain k. -/
def compute_filter_coefficients (x : SSM2044) (cutoff resonance : ℝ) : SSM2044 :=
  let cutoff := CLAMP cutoff 20 (x.sr * 0.45)
  let omega := 2 * PI * cutoff
  let omega_warped := Real.tan (omega * x.sr_inv * 0.5)
  let g := omega_warped / (1 + omega_warped)
  let g := CLAMP g 0 0.99
  let k := resonance * RESONANCE_SCALE
  { x with g := g, k := k }

/-- One pole stage update, the common pattern of the cascade lines 274-277:
state + g * (stage input - state). -/
def onepole (state g u : ℝ) : ℝ :=
  state + g * (u - state)

/-- Embedding of ssm2044_process_sample (lines 252-289).  Returns the
updated state together with the returned output sample. -/
def ssm2044_process_sample (x : SSM2044) (input cutoff resonance gain : ℝ) :
    SSM2044 × ℝ :=
  let x := compute_filter_coefficients x cutoff resonance
  let scaled_input := input * gain
  let saturated_input := soft_saturation scaled_input INPUT_DRIVE
  let g := x.g
  let k := x.k
  let saturated_feedback := soft_saturation x.feedback_sample FEEDBACK_DRIVE
  let fb_input := saturated_input + k * saturated_feedback
  let stage1_out := onepole x.state1 g fb_input
  let stage2_out := onepole x.state2 g stage1_out
  let stage3_out := onepole x.state3 g stage2_out
  let stage4_out := onepole x.state4 g stage3_out
  let x := { x with
    state1 := denormal_fix stage1_out
    state2 := denormal_fix stage2_out
    state3 := denormal_fix stage3_out
    state4 := denormal_fix stage4_out
    feedback_sample := stage4_out }
  (x, stage4_out)

/-- Embedding of ssm2044_dsp64 (lines 202-213): store the reported sample
rate, its reciprocal, and the three signal-connection flags. -/
def ssm2044_dsp64 (x : SSM2044) (samplerate : ℝ)
    (count1 count2 count3 : Bool) : SSM2044 :=
  { x with
    sr := samplerate
    sr_inv := 1 / samplerate
    cutoff_has_signal := count1
    resonance_has_signal := count2
    gain_has_signal := count3 }

/-- One iteration of the while loop of ssm2044_perform64 (lines 230-247):
resolve each parameter against its signal flag, clamp it, process the
sample, and denormal-fix the written output. -/
def ssm2044_perform_frame (x : SSM2044) (audio cutoff_in resonance_in gain_in : ℝ) :
    SSM2044 × ℝ :=
  let cutoff := if x.cutoff_has_signal then cutoff_in else x.cutoff_float
  let resonance := if x.resonance_has_signal then resonance_in else x.resonance_float
  let gain := if x.gain_has_signal then gain_in else x.gain_float
  let cutoff := CLAMP cutoff 20 20000
  let resonance := CLAMP resonance 0 MAX_RESONANCE
  let gain := CLAMP gain 0 4
  let p := ssm2044_process_sample x audio cutoff resonance gain
  (p.1, denormal_fix p.2)

/-- Embedding of the while loop of ssm2044_perform64 starting at frame i
with n frames left.  The input streams are modelled as functions from frame
index to sample; a stream pointer advances exactly when it is read, so when
the corresponding flag is set frame i reads index i, and an unconnected
stream is never read. -/
def ssm2044_perform64_from (audio cutoff_in resonance_in gain_in : ℕ → ℝ) :
    ℕ → ℕ → SSM2044 → SSM2044 × List ℝ
  | _, 0, x => (x, [])
  | i, n+1, x =>
    let p := ssm2044_perform_frame x (audio i) (cutoff_in i) (resonance_in i) (gain_in i)
    let rest := ssm2044_perform64_from audio cutoff_in resonance_in gain_in (i+1) n p.1
    (rest.1, p.2 :: rest.2)

/-- Embedding of ssm2044_perform64 (lines 217-248) over a whole block of
sampleframes frames. -/
def ssm2044_perform64 (x : SSM2044) (audio cutoff_in resonance_in gain_in : ℕ → ℝ)
    (sampleframes : ℕ) : SSM2044 × List ℝ :=
  ssm2044_perform64_from audio cutoff_in resonance_in gain_in 0 sampleframes x

/-- Unit impulse input sequence: 1 at sample 0, then 0. -/
def impulse (n : ℕ) : ℝ :=
  if n = 0 then 1 else 0

/-- One sample of the bare four stage cascade of lines 274-277 with
feedback gain k = 0, so the stage input of stage one is exactly the input
sample: the four one pole updates in order, each stage feeding the next. -/
def cascade_step (g : ℝ) (s : ℝ × ℝ × ℝ × ℝ) (u0 : ℝ) : ℝ × ℝ × ℝ × ℝ :=
  let o1 := onepole s.1 g u0
  let o2 := onepole s.2.1 g o1
  let o3 := onepole s.2.2.1 g o2
  let o4 := onepole s.2.2.2 g o3
  (o1, o2, o3, o4)

/-- States of the bare cascade after n samples of input u, starting from
the zero-initialized state. -/
def cascade_run (g : ℝ) (u : ℕ → ℝ) : ℕ → ℝ × ℝ × ℝ × ℝ
  | 0 => (0, 0, 0, 0)
  | n+1 => cascade_step g (cascade_run g u n) (u n)

/-- Output of the bare cascade at sample n: the fourth stage output produced
while processing sample n. -/
def cascade_output (g : ℝ) (u : ℕ → ℝ) (n : ℕ) : ℝ :=
  (cascade_run g u (n+1)).2.2.2

/-- Freshly constructed state with zeroed filter memory, as ssm2044_new
initializes it (lines 141-161), at an unspecified sample rate of 0 for
fields the individual theorems override. -/
def st0 : SSM2044 :=
  { state1 := 0, state2 := 0, state3 := 0, state4 := 0
    feedback_sample := 0
    sr := 0, sr_inv := 0
    cutoff_float := 1000, resonance_float := 0.5, gain_float := 1
    cutoff_has_signal := false, resonance_has_signal := false
    gain_has_signal := false
    g := 0, k := 0 }

/-- Zero-memory state at the standard 48 kHz sample rate. -/
def st48k : SSM2044 :=
  { st0 with sr := 48000, sr_inv := 1 / 48000 }

/-- Zero-memory state at the degenerate 30 Hz sample rate, where the upper
cutoff clamp bound 0.45 * sr = 13.5 lies below the lower bound 20. -/
def st30 : SSM2044 :=
  { st0 with sr := 30, sr_inv := 1 / 30 }

/-- State at 4000 Hz sample rate whose first pole state holds the tiny value
1e-16, below the denormal threshold after one half-decay. -/
def stC3 : SSM2044 :=
  { st0 with sr := 4000, sr_inv := 1 / 4000, state1 := 1 / 10 ^ 16 }

/-- State at 4000 Hz sample rate whose fourth pole state holds the tiny
value 1e-16. -/
def stC7 : SSM2044 :=
  { st0 with sr := 4000, sr_inv := 1 / 4000, state4 := 1 / 10 ^ 16 }

/-- For a non-degenerate range the clamp never goes below the lower bound. -/
lemma CLAMP_lb (x lo hi : ℝ) (h : lo ≤ hi) : lo ≤ CLAMP x lo hi := by
  unfold CLAMP
  split_ifs <;> linarith

/-- For a non-degenerate range the clamp never exceeds the upper bound. -/
lemma CLAMP_ub (x lo hi : ℝ) (h : lo ≤ hi) : CLAMP x lo hi ≤ hi := by
  unfold CLAMP
  split_ifs <;> linarith

/-- For a non-degenerate range the clamp is monotone in its argument. -/
lemma CLAMP_mono (x y lo hi : ℝ) (h : lo ≤ hi) (hxy : x ≤ y) :
    CLAMP x lo hi ≤ CLAMP y lo hi := by
  unfold CLAMP
  split_ifs <;> linarith

/-- A value already inside the range is left unchanged by the clamp. -/
lemma CLAMP_of_mem (x lo hi : ℝ) (h1 : lo ≤ x) (h2 : x ≤ hi) :
    CLAMP x lo hi = x := by
  unfold CLAMP
  split_ifs <;> linarith

/-- Integrator gain produced by compute_filter_coefficients, written out. -/
lemma ccf_g (x : SSM2044) (c r : ℝ) :
    (compute_filter_coefficients x c r).g =
      CLAMP (Real.tan (2 * PI * CLAMP c 20 (x.sr * 0.45) * x.sr_inv * 0.5) /
        (1 + Real.tan (2 * PI * CLAMP c 20 (x.sr * 0.45) * x.sr_inv * 0.5))) 0 0.99 :=
  rfl

/-- Feedback gain produced by compute_filter_coefficients, written out. -/
lemma ccf_k (x : SSM2044) (c r : ℝ) :
    (compute_filter_coefficients x c r).k = r * RESONANCE_SCALE :=
  rfl

/-- A value whose magnitude is below the threshold is flushed to zero. -/
lemma denormal_fix_small (v : ℝ) (h : |v| < DENORMAL_THRESHOLD) :
    denormal_fix v = 0 :=
  if_pos h

/-- Whatever denormal_fix returns, if its magnitude is below the threshold
then it is exactly zero. -/
lemma denormal_fix_flush (v : ℝ) (h : |denormal_fix v| < DENORMAL_THRESHOLD) :
    denormal_fix v = 0 := by
  unfold denormal_fix at h ⊢
  by_cases h1 : |v| < DENORMAL_THRESHOLD
  · rw [if_pos h1]
  · rw [if_neg h1] at h ⊢
    exact absurd h h1

/-- Saturating silence yields silence, for every drive value. -/
lemma soft_saturation_zero (d : ℝ) : soft_saturation 0 d = 0 := by
  unfold soft_saturation
  split_ifs with h
  · rfl
  · rw [zero_mul, Real.tanh_zero, zero_div]

/-- The hyperbolic tangent of a positive real is positive. -/
lemma tanh_pos_of_pos (x : ℝ) (h : 0 < x) : 0 < Real.tanh x := by
  rw [Real.tanh_eq_sinh_div_cosh]
  exact div_pos (by positivity) (Real.cosh_pos x)

/-- At a 4000 Hz sample rate and a 1000 Hz cutoff the pre-warp angle is
exactly pi/4, so the integrator gain is exactly one half. -/
lemma coeffs_sr4000 (x : SSM2044) (hs : x.sr = 4000) (hinv : x.sr_inv = 1 / 4000)
    (r : ℝ) : (compute_filter_coefficients x 1000 r).g = 1 / 2 := by
  rw [ccf_g, hs, hinv]
  have h1 : CLAMP (1000 : ℝ) 20 (4000 * 0.45) = 1000 := by
    rw [CLAMP_of_mem] <;> norm_num
  rw [h1]
  have h2 : 2 * PI * (1000 : ℝ) * (1 / 4000) * 0.5 = Real.pi / 4 := by
    simp only [PI]
    ring
  rw [h2, Real.tan_pi_div_four]
  rw [CLAMP_of_mem] <;> norm_num

/-- C1 (amended): whenever the Nyquist guard bound 0.45 * sr is at least the
lower cutoff clamp bound 20 (every genuine audio sample rate), the
integrator gain of compute_filter_coefficients lies in [0, 0.99], hence
strictly below 1, and is monotone non-decreasing in the cutoff argument.
For smaller positive sample rates the clamp interval is empty and
monotonicity fails, see the counterexample. -/
theorem cutoff_gain_bounded_monotone (x : SSM2044) (c1 c2 res : ℝ)
    (hsr : 0 < x.sr) (hinv : x.sr_inv = 1 / x.sr)
    (hni : (20 : ℝ) ≤ x.sr * 0.45) (hc : c1 ≤ c2) :
    0 ≤ (compute_filter_coefficients x c1 res).g ∧
    (compute_filter_coefficients x c1 res).g ≤ (compute_filter_coefficients x c2 res).g ∧
    (compute_filter_coefficients x c2 res).g ≤ 0.99 ∧
    (compute_filter_coefficients x c2 res).g < 1 := by
  rw [ccf_g, ccf_g]
  set u := x.sr * 0.45 with hu
  set d1 := CLAMP c1 20 u with hd1
  set d2 := CLAMP c2 20 u with hd2
  have hd1lb : (20 : ℝ) ≤ d1 := CLAMP_lb _ _ _ hni
  have hd2lb : (20 : ℝ) ≤ d2 := CLAMP_lb _ _ _ hni
  have hd2ub : d2 ≤ u := CLAMP_ub _ _ _ hni
  have hdmono : d1 ≤ d2 := CLAMP_mono _ _ _ _ hni hc
  have hang : ∀ d : ℝ, 2 * PI * d * x.sr_inv * 0.5 = Real.pi * d / x.sr := by
    intro d
    rw [hinv]
    simp only [PI]
    ring
  rw [hang d1, hang d2]
  have hth1pos : 0 < Real.pi * d1 / x.sr :=
    div_pos (mul_pos Real.pi_pos (by linarith)) hsr
  have hth2pos : 0 < Real.pi * d2 / x.sr :=
    div_pos (mul_pos Real.pi_pos (by linarith)) hsr
  have hth2lt : Real.pi * d2 / x.sr < Real.pi / 2 := by
    rw [div_lt_div_iff₀ hsr two_pos]
    nlinarith [Real.pi_pos, mul_pos Real.pi_pos hsr]
  have hthmono : Real.pi * d1 / x.sr ≤ Real.pi * d2 / x.sr := by
    gcongr
  have hth1lt : Real.pi * d1 / x.sr < Real.pi / 2 := lt_of_le_of_lt hthmono hth2lt
  have hmem1 : Real.pi * d1 / x.sr ∈ Set.Ioo (-(Real.pi / 2)) (Real.pi / 2) :=
    ⟨by linarith [Real.pi_pos], hth1lt⟩
  have hmem2 : Real.pi * d2 / x.sr ∈ Set.Ioo (-(Real.pi / 2)) (Real.pi / 2) :=
    ⟨by linarith [Real.pi_pos], hth2lt⟩
  have htanmono : Real.tan (Real.pi * d1 / x.sr) ≤ Real.tan (Real.pi * d2 / x.sr) :=
    Real.strictMonoOn_tan.monotoneOn hmem1 hmem2 hthmono
  have ht1pos : 0 < Real.tan (Real.pi * d1 / x.sr) :=
    Real.tan_pos_of_pos_of_lt_pi_div_two hth1pos hth1lt
  set t1 := Real.tan (Real.pi * d1 / x.sr) with ht1
  set t2 := Real.tan (Real.pi * d2 / x.sr) with ht2
  have hg12 : t1 / (1 + t1) ≤ t2 / (1 + t2) := by
    rw [div_le_div_iff₀ (by linarith) (by linarith)]
    nlinarith
  exact ⟨CLAMP_lb _ _ _ (by norm_num), CLAMP_mono _ _ _ _ (by norm_num) hg12,
    CLAMP_ub _ _ _ (by norm_num),
    lt_of_le_of_lt (CLAMP_ub _ _ _ (by norm_num)) (by norm_num)⟩

/-- Witness for the amended C1 theorem at 48 kHz with cutoffs 1000 and
2000 Hz. -/
theorem cutoff_gain_bounded_monotone_witness :
    0 ≤ (compute_filter_coefficients st48k 1000 0.5).g ∧
    (compute_filter_coefficients st48k 1000 0.5).g ≤
      (compute_filter_coefficients st48k 2000 0.5).g ∧
    (compute_filter_coefficients st48k 2000 0.5).g ≤ 0.99 ∧
    (compute_filter_coefficients st48k 2000 0.5).g < 1 :=
  cutoff_gain_bounded_monotone st48k 1000 2000 0.5 (by norm_num [st48k, st0])
    (by norm_num [st48k, st0]) (by norm_num [st48k, st0]) (by norm_num)

/-- Counterexample to C1 as stated: at the positive sample rate 30 Hz the
upper cutoff clamp bound 0.45 * 30 = 13.5 lies below the lower bound 20, the
clamp is no longer monotone, and the integrator gain drops when the cutoff
argument rises from 13 to 21. -/
theorem cutoff_gain_not_monotone_at_degenerate_rate :
    (13 : ℝ) ≤ 21 ∧
    (compute_filter_coefficients st30 21 0).g < (compute_filter_coefficients st30 13 0).g := by
  refine ⟨by norm_num, ?_⟩
  rw [ccf_g, ccf_g]
  have h30 : st30.sr = 30 := rfl
  have h30i : st30.sr_inv = 1 / 30 := rfl
  rw [h30, h30i]
  have hcl13 : CLAMP (13 : ℝ) 20 (30 * 0.45) = 20 := by
    unfold CLAMP
    norm_num
  have hcl21 : CLAMP (21 : ℝ) 20 (30 * 0.45) = 13.5 := by
    unfold CLAMP
    norm_num
  rw [hcl13, hcl21]
  have hang13 : 2 * PI * (20 : ℝ) * (1 / 30) * 0.5 = Real.pi - Real.pi / 3 := by
    simp only [PI]
    ring
  have hang21 : 2 * PI * (13.5 : ℝ) * (1 / 30) * 0.5 = 9 * Real.pi / 20 := by
    simp only [PI]
    ring
  rw [hang13, hang21]
  have htan13 : Real.tan (Real.pi - Real.pi / 3) = -Real.sqrt 3 := by
    rw [Real.tan_eq_sin_div_cos, Real.sin_pi_sub, Real.cos_pi_sub,
      Real.sin_pi_div_three, Real.cos_pi_div_three]
    field_simp
  rw [htan13]
  have hsq3 : Real.sqrt 3 ^ 2 = 3 := Real.sq_sqrt (by norm_num)
  have hsq3gt : 1 < Real.sqrt 3 := by
    nlinarith [Real.sqrt_nonneg 3]
  have hg13 : CLAMP (-Real.sqrt 3 / (1 + -Real.sqrt 3)) 0 0.99 = 0.99 := by
    have hden : 1 + -Real.sqrt 3 < 0 := by linarith
    have hbig : (0.99 : ℝ) < -Real.sqrt 3 / (1 + -Real.sqrt 3) := by
      rw [lt_div_iff_of_neg hden]
      nlinarith
    unfold CLAMP
    rw [if_neg (by linarith), if_pos (by linarith)]
  rw [hg13]
  have hth2pos : (0 : ℝ) < 9 * Real.pi / 20 := by positivity
  have hth2lt : 9 * Real.pi / 20 < Real.pi / 2 := by
    nlinarith [Real.pi_pos]
  have ht2pos : 0 < Real.tan (9 * Real.pi / 20) :=
    Real.tan_pos_of_pos_of_lt_pi_div_two hth2pos hth2lt
  have hcos : Real.cos (9 * Real.pi / 20) = Real.sin (Real.pi / 20) := by
    rw [show 9 * Real.pi / 20 = Real.pi / 2 - Real.pi / 20 by ring,
      Real.cos_pi_div_two_sub]
  have hsin_lb : (1 : ℝ) / 99 < Real.sin (Real.pi / 20) := by
    have h1 : Real.pi / 20 - (Real.pi / 20) ^ 3 / 4 < Real.sin (Real.pi / 20) :=
      Real.sin_gt_sub_cube (by positivity) (by nlinarith [Real.pi_lt_d2])
    have h2 : (3 : ℝ) < Real.pi := Real.pi_gt_three
    have h3 : Real.pi < 3.15 := Real.pi_lt_d2
    have hcube : (Real.pi / 20) ^ 3 < (3.15 / 20 : ℝ) ^ 3 := by
      gcongr
    have hnum : ((3.15 / 20 : ℝ)) ^ 3 / 4 < 0.001 := by norm_num
    nlinarith
  have ht2lt : Real.tan (9 * Real.pi / 20) < 99 := by
    rw [Real.tan_eq_sin_div_cos, div_lt_iff₀ (by rw [hcos]; linarith)]
    have hs1 : Real.sin (9 * Real.pi / 20) ≤ 1 := Real.sin_le_one _
    rw [hcos]
    nlinarith
  set t2 := Real.tan (9 * Real.pi / 20) with ht2def
  have hg21 : CLAMP (t2 / (1 + t2)) 0 0.99 = t2 / (1 + t2) := by
    have hpos : 0 < t2 / (1 + t2) := div_pos ht2pos (by linarith)
    have hlt : t2 / (1 + t2) < 0.99 := by
      rw [div_lt_iff₀ (by linarith)]
      linarith
    exact CLAMP_of_mem _ _ _ (by linarith) (by linarith)
  rw [hg21]
  rw [div_lt_iff₀ (by linarith)]
  linarith

/-- C2: contrary to the claim (and to the development notes, which show a
compensation divisor 1 + resonance * 0.5 and a cap at 4.0), the shipped
compute_filter_coefficients sets k = resonance * RESONANCE_SCALE with no
compensation and no ceiling: at the maximal valid resonance 4 the feedback
gain is 16, far above the claimed ceiling of 4.0. -/
theorem feedback_gain_uncapped :
    (compute_filter_coefficients st48k 1000 4).k = 16 ∧
    ¬ ((compute_filter_coefficients st48k 1000 4).k ≤ 4) := by
  constructor <;> norm_num [ccf_k, RESONANCE_SCALE]

/-- C4: soft_saturation applies only the plain tanh base; the even-harmonic
term 0.05 * tanh(input * drive * 0.5)^2 described by the claim (and by the
development notes) is absent, so at input 1 and drive 1 the code value
tanh 1 differs from the claimed value. -/
theorem saturation_lacks_harmonic_term :
    soft_saturation 1 1 = Real.tanh 1 ∧
    Real.tanh 1 ≠ (Real.tanh (1 * 1) + 0.05 * Real.tanh (1 * 1 * 0.5) ^ 2) / 1 := by
  constructor
  · unfold soft_saturation
    rw [if_neg (by norm_num)]
    norm_num
  · have h : 0 < Real.tanh (1 * 1 * 0.5) := tanh_pos_of_pos _ (by norm_num)
    have h2 : 0 < Real.tanh (1 * 1 * 0.5) ^ 2 := pow_pos h 2
    intro heq
    norm_num at heq h2
    linarith

/-- C5: soft_saturation is the identity whenever the drive is non-positive,
and maps a zero input to exactly zero whenever the drive is positive. -/
theorem saturation_identity_and_zero :
    (∀ x d : ℝ, d ≤ 0 → soft_saturation x d = x) ∧
    (∀ d : ℝ, 0 < d → soft_saturation 0 d = 0) := by
  constructor
  · intro x d hd
    unfold soft_saturation
    rw [if_pos hd]
  · intro d _hd
    exact soft_saturation_zero d

/-- Witness for C5 at input 5 with drive -1 and at input 0 with drive 2. -/
theorem saturation_identity_and_zero_witness :
    soft_saturation 5 (-1) = 5 ∧ soft_saturation 0 2 = 0 :=
  ⟨saturation_identity_and_zero.1 5 (-1) (by norm_num),
   saturation_identity_and_zero.2 2 (by norm_num)⟩

/-- Counterexample to C6 as stated: the non-positive sample rate -1 is
stored together with its reciprocal instead of being rejected, and the rate
0 is stored as well. -/
theorem dsp64_stores_nonpositive_rate :
    (ssm2044_dsp64 st0 (-1) false false false).sr = -1 ∧
    (ssm2044_dsp64 st0 (-1) false false false).sr_inv = 1 / (-1) ∧
    (ssm2044_dsp64 st0 0 true true true).sr = 0 :=
  ⟨rfl, rfl, rfl⟩

/-- C6 (amended): ssm2044_dsp64 performs no validation at all; it stores
the reported sample rate and its reciprocal unconditionally, stores the
three connection flags, and leaves every other field unchanged. -/
theorem dsp64_characterization (x : SSM2044) (r : ℝ) (c1 c2 c3 : Bool) :
    (ssm2044_dsp64 x r c1 c2 c3).sr = r ∧
    (ssm2044_dsp64 x r c1 c2 c3).sr_inv = 1 / r ∧
    (ssm2044_dsp64 x r c1 c2 c3).cutoff_has_signal = c1 ∧
    (ssm2044_dsp64 x r c1 c2 c3).resonance_has_signal = c2 ∧
    (ssm2044_dsp64 x r c1 c2 c3).gain_has_signal = c3 ∧
    (ssm2044_dsp64 x r c1 c2 c3).state1 = x.state1 ∧
    (ssm2044_dsp64 x r c1 c2 c3).state2 = x.state2 ∧
    (ssm2044_dsp64 x r c1 c2 c3).state3 = x.state3 ∧
    (ssm2044_dsp64 x r c1 c2 c3).state4 = x.state4 ∧
    (ssm2044_dsp64 x r c1 c2 c3).feedback_sample = x.feedback_sample ∧
    (ssm2044_dsp64 x r c1 c2 c3).cutoff_float = x.cutoff_float ∧
    (ssm2044_dsp64 x r c1 c2 c3).resonance_float = x.resonance_float ∧
    (ssm2044_dsp64 x r c1 c2 c3).gain_float = x.gain_float :=
  ⟨rfl, rfl, rfl, rfl, rfl, rfl, rfl, rfl, rfl, rfl, rfl, rfl, rfl⟩

/-- C3 (amended): one ssm2044_process_sample call scales the input by the
gain, saturates it with INPUT_DRIVE, saturates the feedback memory with
FEEDBACK_DRIVE, forms the stage input with the computed feedback gain k,
runs the four one pole stages in order with the computed integrator gain g,
stores the DENORMAL-FIXED stage outputs into the pole states, stores the
raw fourth stage output as the new feedback memory, and returns the raw
fourth stage output. -/
theorem process_sample_structure (x : SSM2044) (input cutoff resonance gain : ℝ) :
    let g := (compute_filter_coefficients x cutoff resonance).g
    let k := (compute_filter_coefficients x cutoff resonance).k
    let drivenInput := soft_saturation (input * gain) INPUT_DRIVE
    let drivenFeedback := soft_saturation x.feedback_sample FEEDBACK_DRIVE
    let stageInput := drivenInput + k * drivenFeedback
    let o1 := onepole x.state1 g stageInput
    let o2 := onepole x.state2 g o1
    let o3 := onepole x.state3 g o2
    let o4 := onepole x.state4 g o3
    (ssm2044_process_sample x input cutoff resonance gain).1.state1 = denormal_fix o1 ∧
    (ssm2044_process_sample x input cutoff resonance gain).1.state2 = denormal_fix o2 ∧
    (ssm2044_process_sample x input cutoff resonance gain).1.state3 = denormal_fix o3 ∧
    (ssm2044_process_sample x input cutoff resonance gain).1.state4 = denormal_fix o4 ∧
    (ssm2044_process_sample x input cutoff resonance gain).1.feedback_sample = o4 ∧
    (ssm2044_process_sample x input cutoff resonance gain).2 = o4 := by
  intro g k drivenInput drivenFeedback stageInput o1 o2 o3 o4
  exact ⟨rfl, rfl, rfl, rfl, rfl, rfl⟩

/-- Counterexample to C3 as stated: pole states receive the denormal-fixed
stage outputs, not the raw ones.  At a 4000 Hz rate with first pole state
1e-16, zero input and zero resonance, the raw first stage output is 5e-17
but the stored state is exactly 0. -/
theorem process_sample_stores_raw_outputs_refuted :
    (ssm2044_process_sample stC3 0 1000 0 0).1.state1 = 0 ∧
    onepole stC3.state1 (compute_filter_coefficients stC3 1000 0).g
      (soft_saturation (0 * 0) INPUT_DRIVE +
        (compute_filter_coefficients stC3 1000 0).k *
          soft_saturation stC3.feedback_sample FEEDBACK_DRIVE) = 1 / (2 * 10 ^ 16) ∧
    ((0 : ℝ) ≠ 1 / (2 * 10 ^ 16)) := by
  have hg : (compute_filter_coefficients stC3 1000 0).g = 1 / 2 :=
    coeffs_sr4000 stC3 rfl rfl 0
  have hk : (compute_filter_coefficients stC3 1000 0).k = 0 := by
    rw [ccf_k]
    norm_num
  have hfb : stC3.feedback_sample = 0 := rfl
  have hs1 : stC3.state1 = 1 / 10 ^ 16 := rfl
  have hz : soft_saturation ((0 : ℝ) * 0) INPUT_DRIVE = 0 := by
    rw [zero_mul]
    exact soft_saturation_zero _
  have hmid : onepole stC3.state1 (compute_filter_coefficients stC3 1000 0).g
      (soft_saturation (0 * 0) INPUT_DRIVE +
        (compute_filter_coefficients stC3 1000 0).k *
          soft_saturation stC3.feedback_sample FEEDBACK_DRIVE) = 1 / (2 * 10 ^ 16) := by
    rw [hg, hk, hfb, hs1, hz, soft_saturation_zero]
    unfold onepole
    norm_num
  have hmain : (ssm2044_process_sample stC3 0 1000 0 0).1.state1
      = denormal_fix (onepole stC3.state1 (compute_filter_coefficients stC3 1000 0).g
          (soft_saturation (0 * 0) INPUT_DRIVE +
            (compute_filter_coefficients stC3 1000 0).k *
              soft_saturation stC3.feedback_sample FEEDBACK_DRIVE)) := rfl
  refine ⟨?_, hmid, by norm_num⟩
  rw [hmain, hmid]
  apply denormal_fix_small
  rw [abs_of_pos (by norm_num)]
  norm_num [DENORMAL_THRESHOLD]

/-- C7 (amended): after every ssm2044_process_sample call each of the four
pole states that lies below the denormal threshold in magnitude is exactly
zero, while the feedback memory is stored raw, equal to the returned fourth
stage output, without the flush. -/
theorem process_sample_state_flush (x : SSM2044) (input cutoff resonance gain : ℝ) :
    (|(ssm2044_process_sample x input cutoff resonance gain).1.state1| < DENORMAL_THRESHOLD →
      (ssm2044_process_sample x input cutoff resonance gain).1.state1 = 0) ∧
    (|(ssm2044_process_sample x input cutoff resonance gain).1.state2| < DENORMAL_THRESHOLD →
      (ssm2044_process_sample x input cutoff resonance gain).1.state2 = 0) ∧
    (|(ssm2044_process_sample x input cutoff resonance gain).1.state3| < DENORMAL_THRESHOLD →
      (ssm2044_process_sample x input cutoff resonance gain).1.state3 = 0) ∧
    (|(ssm2044_process_sample x input cutoff resonance gain).1.state4| < DENORMAL_THRESHOLD →
      (ssm2044_process_sample x input cutoff resonance gain).1.state4 = 0) ∧
    (ssm2044_process_sample x input cutoff resonance gain).1.feedback_sample =
      (ssm2044_process_sample x input cutoff resonance gain).2 :=
  ⟨fun h => denormal_fix_flush _ h, fun h => denormal_fix_flush _ h,
   fun h => denormal_fix_flush _ h, fun h => denormal_fix_flush _ h, rfl⟩

/-- Witness for the amended C7 theorem: at the concrete state stC7 the
first pole state lands below the threshold and is indeed flushed to zero. -/
theorem process_sample_state_flush_witness :
    (ssm2044_process_sample stC7 0 1000 0 0).1.state1 = 0 :=
  (process_sample_state_flush stC7 0 1000 0 0).1 (by
    have hmain : (ssm2044_process_sample stC7 0 1000 0 0).1.state1
        = denormal_fix (onepole stC7.state1 (compute_filter_coefficients stC7 1000 0).g
            (soft_saturation (0 * 0) INPUT_DRIVE +
              (compute_filter_coefficients stC7 1000 0).k *
                soft_saturation stC7.feedback_sample FEEDBACK_DRIVE)) := rfl
    have hz : soft_saturation ((0 : ℝ) * 0) INPUT_DRIVE = 0 := by
      rw [zero_mul]
      exact soft_saturation_zero _
    have hfb : stC7.feedback_sample = 0 := rfl
    have h1 : stC7.state1 = 0 := rfl
    rw [hmain, hz, hfb, soft_saturation_zero, h1]
    have hone : onepole 0 ((compute_filter_coefficients stC7 1000 0).g)
        (0 + (compute_filter_coefficients stC7 1000 0).k * 0) = 0 := by
      unfold onepole
      ring
    rw [hone]
    have h0 : denormal_fix (0 : ℝ) = 0 := by
      apply denormal_fix_small
      rw [abs_zero]
      norm_num [DENORMAL_THRESHOLD]
    rw [h0, abs_zero]
    norm_num [DENORMAL_THRESHOLD])

/-- Counterexample to C7 as stated: the feedback memory is not flushed.  At
a 4000 Hz rate with fourth pole state 1e-16, zero input and zero resonance,
the stored feedback memory is 5e-17, a nonzero value below the denormal
threshold. -/
theorem feedback_memory_below_threshold_persists :
    (ssm2044_process_sample stC7 0 1000 0 0).1.feedback_sample = 1 / (2 * 10 ^ 16) ∧
    |(1 : ℝ) / (2 * 10 ^ 16)| < DENORMAL_THRESHOLD ∧
    ((1 : ℝ) / (2 * 10 ^ 16) ≠ 0) := by
  have hg : (compute_filter_coefficients stC7 1000 0).g = 1 / 2 :=
    coeffs_sr4000 stC7 rfl rfl 0
  have hk : (compute_filter_coefficients stC7 1000 0).k = 0 := by
    rw [ccf_k]
    norm_num
  have hmain : (ssm2044_process_sample stC7 0 1000 0 0).1.feedback_sample
      = onepole stC7.state4 (compute_filter_coefficients stC7 1000 0).g
          (onepole stC7.state3 (compute_filter_coefficients stC7 1000 0).g
            (onepole stC7.state2 (compute_filter_coefficients stC7 1000 0).g
              (onepole stC7.state1 (compute_filter_coefficients stC7 1000 0).g
                (soft_saturation (0 * 0) INPUT_DRIVE +
                  (compute_filter_coefficients stC7 1000 0).k *
                    soft_saturation stC7.feedback_sample FEEDBACK_DRIVE)))) := rfl
  refine ⟨?_, ?_, by norm_num⟩
  · have hz : soft_saturation ((0 : ℝ) * 0) INPUT_DRIVE = 0 := by
      rw [zero_mul]
      exact soft_saturation_zero _
    have hfb : stC7.feedback_sample = 0 := rfl
    have h1 : stC7.state1 = 0 := rfl
    have h2 : stC7.state2 = 0 := rfl
    have h3 : stC7.state3 = 0 := rfl
    have h4 : stC7.state4 = 1 / 10 ^ 16 := rfl
    rw [hmain, hg, hk, hz, hfb, soft_saturation_zero, h1, h2, h3, h4]
    unfold onepole
    norm_num
  · rw [abs_of_pos (by norm_num)]
    norm_num [DENORMAL_THRESHOLD]

/-- C8: each frame of the block loop takes every parameter from its signal
stream when the flag is set and from the held scalar otherwise, clamps it
(cutoff to [20, 20000], resonance to [0, MAX_RESONANCE], gain to [0, 4])
before ssm2044_process_sample sees it, the block recursion consumes one
frame at a time in order, and on the boundary inputs of the claim the clamp
resolves a 50000 Hz cutoff to 20000 and a resonance of -1 to 0. -/
theorem perform64_resolves_and_clamps :
    (∀ (x : SSM2044) (a ci ri gi : ℝ),
      ssm2044_perform_frame x a ci ri gi =
        ((ssm2044_process_sample x a
            (CLAMP (if x.cutoff_has_signal then ci else x.cutoff_float) 20 20000)
            (CLAMP (if x.resonance_has_signal then ri else x.resonance_float) 0 MAX_RESONANCE)
            (CLAMP (if x.gain_has_signal then gi else x.gain_float) 0 4)).1,
         denormal_fix (ssm2044_process_sample x a
            (CLAMP (if x.cutoff_has_signal then ci else x.cutoff_float) 20 20000)
            (CLAMP (if x.resonance_has_signal then ri else x.resonance_float) 0 MAX_RESONANCE)
            (CLAMP (if x.gain_has_signal then gi else x.gain_float) 0 4)).2)) ∧
    (∀ (a ci ri gi : ℕ → ℝ) (i n : ℕ) (x : SSM2044),
      ssm2044_perform64_from a ci ri gi i (n + 1) x =
        ((ssm2044_perform64_from a ci ri gi (i + 1) n
            (ssm2044_perform_frame x (a i) (ci i) (ri i) (gi i)).1).1,
         (ssm2044_perform_frame x (a i) (ci i) (ri i) (gi i)).2 ::
           (ssm2044_perform64_from a ci ri gi (i + 1) n
             (ssm2044_perform_frame x (a i) (ci i) (ri i) (gi i)).1).2)) ∧
    CLAMP 50000 20 20000 = 20000 ∧
    CLAMP (-1) 0 MAX_RESONANCE = 0 := by
  refine ⟨fun x a ci ri gi => rfl, fun a ci ri gi i n x => rfl, ?_, ?_⟩
  · unfold CLAMP
    norm_num
  · unfold CLAMP MAX_RESONANCE
    norm_num

/-- Counterexample to C9 as stated: at the admissible integrator gain 1/2
the impulse response of the bare cascade rises from 1/16 at sample 0 to 1/8
at sample 1, so the output sequence does not decay monotonically. -/
theorem impulse_response_not_monotone :
    (0 : ℝ) ≤ 1 / 2 ∧ (1 / 2 : ℝ) ≤ 0.99 ∧
    cascade_output (1 / 2) impulse 0 = 1 / 16 ∧
    cascade_output (1 / 2) impulse 1 = 1 / 8 ∧
    ¬ (cascade_output (1 / 2) impulse 1 ≤ cascade_output (1 / 2) impulse 0) := by
  have h0 : cascade_output (1 / 2) impulse 0 = 1 / 16 := by
    norm_num [cascade_output, cascade_run, cascade_step, onepole, impulse]
  have h1 : cascade_output (1 / 2) impulse 1 = 1 / 8 := by
    norm_num [cascade_output, cascade_run, cascade_step, onepole, impulse]
  refine ⟨by norm_num, by norm_num, h0, h1, ?_⟩
  rw [h0, h1]
  norm_num

/-- C9 (amended): for every integrator gain in [0, 0.99] the one pole stage
recursion is non-expansive (the stage output magnitude never exceeds the
larger of the state and input magnitudes), and a unit impulse into the
zero-initialized cascade with feedback gain 0 keeps all four stage states
and the output inside [0, 1] at every sample; the impulse response is
bounded by these stage-local bounds though not monotonically decaying. -/
theorem cascade_nonexpansive_bounded (g : ℝ) (hg0 : 0 ≤ g) (hg99 : g ≤ 0.99) :
    (∀ s u : ℝ, |onepole s g u| ≤ max |s| |u|) ∧
    (∀ n : ℕ,
      0 ≤ (cascade_run g impulse n).1 ∧ (cascade_run g impulse n).1 ≤ 1 ∧
      0 ≤ (cascade_run g impulse n).2.1 ∧ (cascade_run g impulse n).2.1 ≤ 1 ∧
      0 ≤ (cascade_run g impulse n).2.2.1 ∧ (cascade_run g impulse n).2.2.1 ≤ 1 ∧
      0 ≤ (cascade_run g impulse n).2.2.2 ∧ (cascade_run g impulse n).2.2.2 ≤ 1) ∧
    (∀ n : ℕ, 0 ≤ cascade_output g impulse n ∧ cascade_output g impulse n ≤ 1) := by
  have hg1 : g ≤ 1 := by linarith
  have hone : ∀ s u : ℝ, 0 ≤ s → s ≤ 1 → 0 ≤ u → u ≤ 1 →
      0 ≤ onepole s g u ∧ onepole s g u ≤ 1 := by
    intro s u hs0 hs1 hu0 hu1
    unfold onepole
    constructor <;> nlinarith
  have himp : ∀ n : ℕ, 0 ≤ impulse n ∧ impulse n ≤ 1 := by
    intro n
    unfold impulse
    split_ifs <;> norm_num
  have hstep : ∀ (s : ℝ × ℝ × ℝ × ℝ) (u0 : ℝ),
      0 ≤ s.1 → s.1 ≤ 1 → 0 ≤ s.2.1 → s.2.1 ≤ 1 →
      0 ≤ s.2.2.1 → s.2.2.1 ≤ 1 → 0 ≤ s.2.2.2 → s.2.2.2 ≤ 1 →
      0 ≤ u0 → u0 ≤ 1 →
      0 ≤ (cascade_step g s u0).1 ∧ (cascade_step g s u0).1 ≤ 1 ∧
      0 ≤ (cascade_step g s u0).2.1 ∧ (cascade_step g s u0).2.1 ≤ 1 ∧
      0 ≤ (cascade_step g s u0).2.2.1 ∧ (cascade_step g s u0).2.2.1 ≤ 1 ∧
      0 ≤ (cascade_step g s u0).2.2.2 ∧ (cascade_step g s u0).2.2.2 ≤ 1 := by
    intro s u0 h1 h2 h3 h4 h5 h6 h7 h8 h9 h10
    have p1 := hone _ _ h1 h2 h9 h10
    have p2 := hone _ _ h3 h4 p1.1 p1.2
    have p3 := hone _ _ h5 h6 p2.1 p2.2
    have p4 := hone _ _ h7 h8 p3.1 p3.2
    exact ⟨p1.1, p1.2, p2.1, p2.2, p3.1, p3.2, p4.1, p4.2⟩
  have hstates : ∀ n : ℕ,
      0 ≤ (cascade_run g impulse n).1 ∧ (cascade_run g impulse n).1 ≤ 1 ∧
      0 ≤ (cascade_run g impulse n).2.1 ∧ (cascade_run g impulse n).2.1 ≤ 1 ∧
      0 ≤ (cascade_run g impulse n).2.2.1 ∧ (cascade_run g impulse n).2.2.1 ≤ 1 ∧
      0 ≤ (cascade_run g impulse n).2.2.2 ∧ (cascade_run g impulse n).2.2.2 ≤ 1 := by
    intro n
    induction n with
    | zero => norm_num [cascade_run]
    | succ m ih =>
      obtain ⟨i1, i2, i3, i4, i5, i6, i7, i8⟩ := ih
      have hi := himp m
      have hrun : cascade_run g impulse (m + 1) =
          cascade_step g (cascade_run g impulse m) (impulse m) := rfl
      rw [hrun]
      exact hstep _ _ i1 i2 i3 i4 i5 i6 i7 i8 hi.1 hi.2
  refine ⟨?_, hstates, ?_⟩
  · intro s u
    have hrw : onepole s g u = (1 - g) * s + g * u := by
      unfold onepole
      ring
    rw [hrw]
    have hs := le_max_left |s| |u|
    have hu := le_max_right |s| |u|
    calc |(1 - g) * s + g * u| ≤ |(1 - g) * s| + |g * u| := abs_add _ _
      _ = (1 - g) * |s| + g * |u| := by
          rw [abs_mul, abs_mul, abs_of_nonneg (by linarith : (0 : ℝ) ≤ 1 - g),
            abs_of_nonneg hg0]
      _ ≤ (1 - g) * max |s| |u| + g * max |s| |u| :=
          add_le_add (mul_le_mul_of_nonneg_left hs (by linarith))
            (mul_le_mul_of_nonneg_left hu hg0)
      _ = max |s| |u| := by ring
  · intro n
    have h := hstates (n + 1)
    exact ⟨h.2.2.2.2.2.2.1, h.2.2.2.2.2.2.2⟩

/-- Witness for the amended C9 theorem at gain 1/2: non-expansiveness at
state 2 and input 6, and output bounds at sample 5. -/
theorem cascade_nonexpansive_bounded_witness :
    |onepole 2 (1 / 2) 6| ≤ max |(2 : ℝ)| |(6 : ℝ)| ∧
    0 ≤ cascade_output (1 / 2) impulse 5 ∧ cascade_output (1 / 2) impulse 5 ≤ 1 :=
  ⟨(cascade_nonexpansive_bounded (1 / 2) (by norm_num) (by norm_num)).1 2 6,
   ((cascade_nonexpansive_bounded (1 / 2) (by norm_num) (by norm_num)).2.2 5).1,
   ((cascade_nonexpansive_bounded (1 / 2) (by norm_num) (by norm_num)).2.2 5).2⟩

/-- The while loop body of ssm2044_perform64 leaves the held parameter
scalars, the connection flags and the sample rate fields untouched. -/
lemma perform_frame_preserves (x : SSM2044) (a ci ri gi : ℝ) :
    (ssm2044_perform_frame x a ci ri gi).1.cutoff_float = x.cutoff_float ∧
    (ssm2044_perform_frame x a ci ri gi).1.resonance_float = x.resonance_float ∧
    (ssm2044_perform_frame x a ci ri gi).1.gain_float = x.gain_float ∧
    (ssm2044_perform_frame x a ci ri gi).1.cutoff_has_signal = x.cutoff_has_signal ∧
    (ssm2044_perform_frame x a ci ri gi).1.resonance_has_signal = x.resonance_has_signal ∧
    (ssm2044_perform_frame x a ci ri gi).1.gain_has_signal = x.gain_has_signal ∧
    (ssm2044_perform_frame x a ci ri gi).1.sr = x.sr ∧
    (ssm2044_perform_frame x a ci ri gi).1.sr_inv = x.sr_inv :=
  ⟨rfl, rfl, rfl, rfl, rfl, rfl, rfl, rfl⟩

/-- C10: neither a single ssm2044_process_sample call nor a whole
ssm2044_perform64 block changes the held parameter scalars, the
signal-connection flags or the sample rate fields; only the pole states,
the feedback memory and the derived coefficients are written. -/
theorem perform_preserves_parameters :
    (∀ (x : SSM2044) (input cutoff resonance gain : ℝ),
      (ssm2044_process_sample x input cutoff resonance gain).1.cutoff_float = x.cutoff_float ∧
      (ssm2044_process_sample x input cutoff resonance gain).1.resonance_float = x.resonance_float ∧
      (ssm2044_process_sample x input cutoff resonance gain).1.gain_float = x.gain_float ∧
      (ssm2044_process_sample x input cutoff resonance gain).1.cutoff_has_signal = x.cutoff_has_signal ∧
      (ssm2044_process_sample x input cutoff resonance gain).1.resonance_has_signal = x.resonance_has_signal ∧
      (ssm2044_process_sample x input cutoff resonance gain).1.gain_has_signal = x.gain_has_signal ∧
      (ssm2044_process_sample x input cutoff resonance gain).1.sr = x.sr ∧
      (ssm2044_process_sample x input cutoff resonance gain).1.sr_inv = x.sr_inv) ∧
    (∀ (a ci ri gi : ℕ → ℝ) (i n : ℕ) (x : SSM2044),
      (ssm2044_perform64_from a ci ri gi i n x).1.cutoff_float = x.cutoff_float ∧
      (ssm2044_perform64_from a ci ri gi i n x).1.resonance_float = x.resonance_float ∧
      (ssm2044_perform64_from a ci ri gi i n x).1.gain_float = x.gain_float ∧
      (ssm2044_perform64_from a ci ri gi i n x).1.cutoff_has_signal = x.cutoff_has_signal ∧
      (ssm2044_perform64_from a ci ri gi i n x).1.resonance_has_signal = x.resonance_has_signal ∧
      (ssm2044_perform64_from a ci ri gi i n x).1.gain_has_signal = x.gain_has_signal ∧
      (ssm2044_perform64_from a ci ri gi i n x).1.sr = x.sr ∧
      (ssm2044_perform64_from a ci ri gi i n x).1.sr_inv = x.sr_inv) := by
  constructor
  · intro x input cutoff resonance gain
    exact ⟨rfl, rfl, rfl, rfl, rfl, rfl, rfl, rfl⟩
  · intro a ci ri gi i n
    induction n generalizing i with
    | zero =>
      intro x
      exact ⟨rfl, rfl, rfl, rfl, rfl, rfl, rfl, rfl⟩
    | succ m ih =>
      intro x
      have hfr := perform_frame_preserves x (a i) (ci i) (ri i) (gi i)
      have hrec := ih (i + 1) (ssm2044_perform_frame x (a i) (ci i) (ri i) (gi i)).1
      have hstep : (ssm2044_perform64_from a ci ri gi i (m + 1) x).1 =
          (ssm2044_perform64_from a ci ri gi (i + 1) m
            (ssm2044_perform_frame x (a i) (ci i) (ri i) (gi i)).1).1 := rfl
      rw [hstep]
      exact ⟨hrec.1.trans hfr.1, hrec.2.1.trans hfr.2.1,
        hrec.2.2.1.trans hfr.2.2.1, hrec.2.2.2.1.trans hfr.2.2.2.1,
        hrec.2.2.2.2.1.trans hfr.2.2.2.2.1, hrec.2.2.2.2.2.1.trans hfr.2.2.2.2.2.1,
        hrec.2.2.2.2.2.2.1.trans hfr.2.2.2.2.2.2.1,
        hrec.2.2.2.2.2.2.2.trans hfr.2.2.2.2.2.2.2⟩

end
